import Mathlib

/-
Shallow embedding of the X-Plane OBJ importer in src/XP_import.py,
method XPlaneImport.run.  Floats are modelled as rationals; the
stateful line loop becomes a step function on an explicit state
record, run over a list of pre-tokenized directives.  Python list
indexing, item assignment, pop and slicing are modelled with the
exact Python semantics (negative indices, clamping slices,
IndexError on bad index or on pop from an empty list).
-/

namespace XPImport

/-- Vec3 models a mathutils.Vector of three float components. -/
abbrev Vec3 := ℚ × ℚ × ℚ

/-- Componentwise addition of two vectors. -/
def vadd (a b : Vec3) : Vec3 := (a.1 + b.1, a.2.1 + b.2.1, a.2.2 + b.2.2)

/-- Componentwise subtraction of two vectors. -/
def vsub (a b : Vec3) : Vec3 := (a.1 - b.1, a.2.1 - b.2.1, a.2.2 - b.2.2)

/-- Sum of a list of vectors. -/
def vsum (l : List Vec3) : Vec3 := l.foldl vadd (0, 0, 0)

/-- The coordinate conversion the importer applies to raw file
triples: raw (x, y, z) is stored as (x, -z, y), as in lines 152-162
and 175-179 of src/XP_import.py. -/
def conv (v : Vec3) : Vec3 := (v.1, -v.2.2, v.2.1)

/-- Exceptions the modelled Python code can raise. -/
inductive PyErr where
  | indexError
  deriving DecidableEq, Repr

/-- Python index resolution for a list of length n: a negative index
counts from the end; the result is none when the index is out of
range (Python raises IndexError there). -/
def pyIdx (n : Nat) (i : Int) : Option Nat :=
  if i < 0 then
    let j := i + n
    if j < 0 then none else some j.toNat
  else if i < n then some i.toNat else none

/-- Python item assignment l[i] = a. -/
def pySet (l : List α) (i : Int) (a : α) : Option (List α) :=
  (pyIdx l.length i).map (fun k => l.set k a)

/-- Python slice l[i:j]: both bounds are clamped to [0, len(l)],
negative bounds count from the end, and an empty list results when
the resolved lower bound is not below the upper bound. -/
def pySliceIdx (n : Nat) (i : Int) : Nat :=
  if i < 0 then (max (i + n) 0).toNat else min i.toNat n

/-- Python slice l[i:j] built from the two clamped bounds. -/
def pySlice (l : List α) (i j : Int) : List α :=
  (l.take (pySliceIdx l.length j)).drop (pySliceIdx l.length i)

/-- Grouping of a flat index list into consecutive triples, dropping
any remainder: this is tuple(zip(*[iter(obj)]*3)) at line 202 of
src/XP_import.py. -/
def chunk3 : List Int → List (Int × Int × Int)
  | a :: b :: c :: rest => (a, b, c) :: chunk3 rest
  | _ => []

/-- The triangles of one emitted object descriptor. -/
def objectTriangles (obj : List Int) : List (Int × Int × Int) := chunk3 obj

/-- Pre-tokenized, numerically parsed input lines of run (lines the
loop dispatches on).  Lines with unknown keywords, blank lines and
the texture lines do not touch the parse state and are OTHER. -/
inductive Directive where
  | VT (x y z nx ny nz u v : ℚ)
  | IDX (idxs : List Int)
  | ANIM_begin
  | ANIM_trans (x y z : ℚ)
  | ANIM_end
  | TRIS (offset count : Int)
  | OTHER
  deriving DecidableEq, Repr

/-- The mutable locals of XPlaneImport.run during the line loop. -/
structure ParseState where
  verts : List Vec3
  uv : List (ℚ × ℚ)
  faces : List Int
  normals : List Vec3
  origin_temp : Vec3
  anim_nesting : Int
  a_trans : List Vec3
  trans_available : Bool
  objects : List (Vec3 × List Int)
  deriving DecidableEq, Repr

/-- Initial state of the loop, lines 101-110 of src/XP_import.py:
empty buffers, zero cumulative origin, the transform list pre-seeded
with a single zero root frame. -/
def initState : ParseState :=
  { verts := [], uv := [], faces := [], normals := []
  , origin_temp := (0, 0, 0), anim_nesting := 0
  , a_trans := [(0, 0, 0)], trans_available := false, objects := [] }

/-- One iteration of the line loop of run (lines 115-196 of
src/XP_import.py), for a line already classified as a directive.
origo is the caller-supplied base placement argument of run. -/
def step (origo : Vec3) (s : ParseState) (d : Directive) :
    Except PyErr ParseState :=
  match d with
  | .VT x y z nx ny nz u v =>
      .ok { s with
        verts := s.verts ++ [(x, -z, y)]
        normals := s.normals ++ [(nx, -nz, ny)]
        uv := s.uv ++ [(u, v)] }
  | .IDX idxs =>
      .ok { s with faces := s.faces ++ idxs }
  | .ANIM_begin =>
      .ok { s with
        anim_nesting := s.anim_nesting + 1
        a_trans := s.a_trans ++ [(0, 0, 0)] }
  | .ANIM_trans x y z =>
      let o_t : Vec3 := (x, -z, y)
      match pySet s.a_trans s.anim_nesting o_t with
      | none => .error .indexError
      | some l =>
          .ok { s with
            a_trans := l
            origin_temp := vadd s.origin_temp o_t
            trans_available := true }
  | .ANIM_end =>
      match s.a_trans.getLast? with
      | none => .error .indexError
      | some v =>
          .ok { s with
            anim_nesting := s.anim_nesting - 1
            a_trans := s.a_trans.dropLast
            origin_temp := vsub s.origin_temp v
            trans_available :=
              if s.anim_nesting - 1 == 0 then false else s.trans_available }
  | .TRIS offset count =>
      let obj_lst := pySlice s.faces offset (offset + count)
      let obj_origin := if s.trans_available then s.origin_temp else origo
      .ok { s with objects := s.objects ++ [(obj_origin, obj_lst)] }
  | .OTHER => .ok s

instance {ε α : Type _} [DecidableEq ε] [DecidableEq α] :
    DecidableEq (Except ε α) := fun x y =>
  match x, y with
  | .error a, .error b =>
      if h : a = b then isTrue (congrArg Except.error h)
      else isFalse (fun hc => h (by injection hc))
  | .error _, .ok _ => isFalse (fun hc => Except.noConfusion hc)
  | .ok _, .error _ => isFalse (fun hc => Except.noConfusion hc)
  | .ok a, .ok b =>
      if h : a = b then isTrue (congrArg Except.ok h)
      else isFalse (fun hc => h (by injection hc))

/-- The whole line loop: fold step over the directive list, stopping
at the first uncaught exception (run catches nothing). -/
def runDirectives (origo : Vec3) : ParseState → List Directive →
    Except PyErr ParseState
  | s, [] => .ok s
  | s, d :: ds =>
      match step origo s d with
      | .error e => .error e
      | .ok s2 => runDirectives origo s2 ds

/-- Appending directive lists composes the runs, failure included. -/
theorem runDirectives_append (origo : Vec3) (s : ParseState)
    (ds1 ds2 : List Directive) :
    runDirectives origo s (ds1 ++ ds2)
      = (runDirectives origo s ds1).bind
          (fun t => runDirectives origo t ds2) := by
  induction ds1 generalizing s with
  | nil => rfl
  | cons d ds ih =>
      simp only [List.cons_append, runDirectives]
      cases step origo s d with
      | error e => rfl
      | ok s2 => exact ih s2

/-- C1: the claim says a VT raw position (1, 2, 3) is stored as
(1, 3, -2); the code stores (1, -3, 2), so the claim is false. -/
theorem C1_counterexample :
    (step (0, 0, 0) initState (Directive.VT 1 2 3 4 5 6 7 8)).map
        ParseState.verts = .ok [(1, -3, 2)]
    ∧ ((1, -3, 2) : Vec3) ≠ (1, 3, -2) := by decide

/-- C1 (amended): a VT record with raw position (x, y, z) and raw
normal (nx, ny, nz) stores the converted position (x, -z, y) and the
converted normal (nx, -nz, ny) — the identical conv rule for both —
and stores the UV pair (fields 7 and 8) unaltered. -/
theorem C1_vt_conversion (origo : Vec3) (s : ParseState)
    (x y z nx ny nz u v : ℚ) :
    step origo s (.VT x y z nx ny nz u v)
      = .ok { s with
          verts := s.verts ++ [conv (x, y, z)]
          normals := s.normals ++ [conv (nx, ny, nz)]
          uv := s.uv ++ [(u, v)] } := rfl

/-- C2: after ANIM_begin alone the stack depth is 1 (above the root)
and the cumulative origin is (0, 0, 0), yet a TRIS directive there is
emitted with the caller base (5, 0, 0), not with currentOrigin, so
the depth-based claim is false. -/
theorem C2_counterexample :
    ((runDirectives (5, 0, 0) initState [Directive.ANIM_begin]).map
        (fun s => (s.anim_nesting, s.origin_temp)) = .ok (1, (0, 0, 0)))
    ∧ ((runDirectives (5, 0, 0) initState
          [Directive.ANIM_begin, Directive.TRIS 0 0]).map
        ParseState.objects = .ok [((5, 0, 0), [])])
    ∧ ((5, 0, 0) : Vec3) ≠ (0, 0, 0) := by decide

/-- C2 (amended): a TRIS directive after any directive sequence emits
a descriptor whose origin is the running cumulative origin when the
trans_available flag is set (an ANIM_trans was executed and nesting
has not returned to zero through an ANIM_end since), and the caller
base placement otherwise; the index list is the Python slice of the
current buffer. -/
theorem C2_origin_choice (origo : Vec3) (ds : List Directive)
    (s : ParseState) (off cnt : Int)
    (h : runDirectives origo initState ds = .ok s) :
    (runDirectives origo initState (ds ++ [Directive.TRIS off cnt])).map
        ParseState.objects
      = .ok (s.objects ++
          [((if s.trans_available then s.origin_temp else origo),
            pySlice s.faces off (off + cnt))]) := by
  rw [runDirectives_append, h]
  rfl

/-- C2 (witness): with an empty prefix and base (7, 0, 0) the TRIS
descriptor carries the base placement. -/
theorem C2_origin_choice_witness :
    (runDirectives (7, 0, 0) initState [Directive.TRIS 0 0]).map
        ParseState.objects
      = .ok [((7, 0, 0), [])] :=
  (C2_origin_choice (7, 0, 0) [] initState 0 0 rfl).trans (by decide)

/-- C3: two ANIM_trans inside one frame leave origin_temp at
(3, 0, 0) while the frames on the stack sum to (2, 0, 0) (the second
translate overwrote the frame but both were added to the running
origin); after the matching ANIM_end the origin stays at (1, 0, 0)
though every frame above the root is gone. -/
theorem C3_eval :
    ((runDirectives (0, 0, 0) initState
        [Directive.ANIM_begin, Directive.ANIM_trans 1 0 0,
         Directive.ANIM_trans 2 0 0]).map
        (fun s => (s.origin_temp, vsum s.a_trans))
      = .ok ((3, 0, 0), (2, 0, 0)))
    ∧ ((runDirectives (0, 0, 0) initState
        [Directive.ANIM_begin, Directive.ANIM_trans 1 0 0,
         Directive.ANIM_trans 2 0 0, Directive.ANIM_end]).map
        (fun s => (s.origin_temp, vsum s.a_trans))
      = .ok ((1, 0, 0), (0, 0, 0)))
    ∧ ((3, 0, 0) : Vec3) ≠ (2, 0, 0) := by
  refine ⟨?_, ?_, by decide⟩ <;>
    norm_num [runDirectives, step, initState, pySet, pyIdx, vadd, vsub, vsum,
      Except.map]

/-- C4: a TRIS with offset 5 and count 10 against a 9-entry buffer
does not fail: Python slicing clamps, and a descriptor holding the 4
remaining indices is appended, so the RangeError claim is false. -/
theorem C4_counterexample :
    (runDirectives (0, 0, 0) initState
        [Directive.IDX [0, 1, 2, 3, 4, 5, 6, 7, 8],
         Directive.TRIS 5 10]).map ParseState.objects
      = .ok [((0, 0, 0), [5, 6, 7, 8])] := by decide

/-- C4 (amended): a TRIS whose offset is non-negative and whose
offset plus count reaches past the buffer end raises nothing: the
slice clamps to the entries from offset to the end of the buffer and
a descriptor holding them is appended, so parsing continues. -/
theorem C4_clamped_slice (origo : Vec3) (s : ParseState) (off cnt : Int)
    (h1 : 0 ≤ off) (h2 : (s.faces.length : Int) ≤ off + cnt) :
    (step origo s (.TRIS off cnt)).map ParseState.objects
      = .ok (s.objects ++
          [((if s.trans_available then s.origin_temp else origo),
            s.faces.drop off.toNat)]) := by
  have hslice : pySlice s.faces off (off + cnt) = s.faces.drop off.toNat := by
    unfold pySlice pySliceIdx
    rw [if_neg (by omega), if_neg (by omega)]
    have hb : min (off + cnt).toNat s.faces.length = s.faces.length := by
      omega
    rw [hb, List.take_length]
    rcases le_or_lt off.toNat s.faces.length with hc | hc
    · rw [min_eq_left hc]
    · rw [min_eq_right hc.le, List.drop_eq_nil_of_le (le_refl _),
        List.drop_eq_nil_of_le hc.le]
  simp only [step, hslice]
  rfl

/-- C4 (witness): the concrete out-of-range directive of the claim,
offset 5 and count 10 against the buffer 0..8. -/
theorem C4_clamped_slice_witness :
    (step (0, 0, 0) { initState with faces := [0, 1, 2, 3, 4, 5, 6, 7, 8] }
        (Directive.TRIS 5 10)).map ParseState.objects
      = .ok [((0, 0, 0), [5, 6, 7, 8])] :=
  (C4_clamped_slice (0, 0, 0)
      { initState with faces := [0, 1, 2, 3, 4, 5, 6, 7, 8] } 5 10
      (by decide) (by decide)).trans (by decide)

/-- C5: a TRIS with count 4 (not a multiple of 3) does not fail: the
grouping silently drops the one leftover index and the object is
still emitted, so the MalformedTriangleData claim is false. -/
theorem C5_counterexample :
    (runDirectives (0, 0, 0) initState
        [Directive.IDX [0, 1, 2, 3, 4, 5, 6, 7, 8],
         Directive.TRIS 0 4]).map
        (fun s => s.objects.map (fun p => objectTriangles p.2))
      = .ok [[(0, 1, 2)]] := by decide

/-- C5 (amended): the grouping step never fails: chunk3 cuts the flat
list into consecutive triples covering exactly the first
3 * (length / 3) entries in order, silently dropping a remainder of
one or two trailing indices. -/
theorem C5_chunk3_groups : ∀ l : List Int,
    ((chunk3 l).map (fun t => [t.1, t.2.1, t.2.2])).flatten
        = l.take (3 * (l.length / 3))
      ∧ (chunk3 l).length = l.length / 3
  | [] => by simp [chunk3]
  | [a] => by simp [chunk3]
  | [a, b] => by simp [chunk3]
  | a :: b :: c :: rest => by
      obtain ⟨ih1, ih2⟩ := C5_chunk3_groups rest
      constructor
      · have hdiv : 3 * ((a :: b :: c :: rest).length / 3)
            = 3 * (rest.length / 3) + 3 := by
          simp only [List.length_cons]
          omega
        rw [hdiv]
        have htake : (a :: b :: c :: rest).take (3 * (rest.length / 3) + 3)
            = a :: b :: c :: rest.take (3 * (rest.length / 3)) := rfl
        rw [htake]
        simp [chunk3, ih1]
      · simp only [chunk3, List.length_cons, ih2]
        omega

/-- C6: a lone unmatched ANIM_end does not fail: it pops the
pre-seeded root frame and drives the nesting counter to -1, so both
the StackUnderflow claim and the never-negative-depth claim are
false. -/
theorem C6_counterexample :
    (runDirectives (0, 0, 0) initState [Directive.ANIM_end]).map
        ParseState.anim_nesting
      = .ok (-1) := by decide

/-- C6 (amended): the first unmatched ANIM_end succeeds, leaving
nesting at -1 and the frame list empty; only a second unmatched
ANIM_end faults, with an IndexError from popping an empty list, not
with a StackUnderflow. -/
theorem C6_unmatched_end (origo : Vec3) :
    ((runDirectives origo initState [Directive.ANIM_end]).map
        (fun s => (s.anim_nesting, s.a_trans)) = .ok (-1, []))
    ∧ runDirectives origo initState [Directive.ANIM_end, Directive.ANIM_end]
        = .error PyErr.indexError := by
  exact ⟨rfl, rfl⟩

/-- One step keeps the three vertex buffers at equal lengths. -/
theorem step_lengths (origo : Vec3) (s : ParseState) (d : Directive)
    (s2 : ParseState) (h : step origo s d = .ok s2)
    (h1 : s.verts.length = s.normals.length)
    (h2 : s.verts.length = s.uv.length) :
    s2.verts.length = s2.normals.length
      ∧ s2.verts.length = s2.uv.length := by
  cases d with
  | VT x y z nx ny nz u v =>
      simp only [step, Except.ok.injEq] at h
      subst h
      exact ⟨by simp [h1], by simp [h2]⟩
  | IDX idxs =>
      simp only [step, Except.ok.injEq] at h
      subst h
      exact ⟨h1, h2⟩
  | ANIM_begin =>
      simp only [step, Except.ok.injEq] at h
      subst h
      exact ⟨h1, h2⟩
  | ANIM_trans x y z =>
      simp only [step] at h
      cases hp : pySet s.a_trans s.anim_nesting (x, -z, y) with
      | none => rw [hp] at h; cases h
      | some l =>
          rw [hp] at h
          simp only [Except.ok.injEq] at h
          subst h
          exact ⟨h1, h2⟩
  | ANIM_end =>
      simp only [step] at h
      cases hp : s.a_trans.getLast? with
      | none => rw [hp] at h; cases h
      | some v =>
          rw [hp] at h
          simp only [Except.ok.injEq] at h
          subst h
          exact ⟨h1, h2⟩
  | TRIS off cnt =>
      simp only [step, Except.ok.injEq] at h
      subst h
      exact ⟨h1, h2⟩
  | OTHER =>
      simp only [step, Except.ok.injEq] at h
      subst h
      exact ⟨h1, h2⟩

/-- A whole run keeps the three vertex buffers at equal lengths. -/
theorem runDirectives_lengths (origo : Vec3) (ds : List Directive)
    (s s2 : ParseState) (h : runDirectives origo s ds = .ok s2)
    (h1 : s.verts.length = s.normals.length)
    (h2 : s.verts.length = s.uv.length) :
    s2.verts.length = s2.normals.length
      ∧ s2.verts.length = s2.uv.length := by
  induction ds generalizing s with
  | nil =>
      simp only [runDirectives, Except.ok.injEq] at h
      subst h
      exact ⟨h1, h2⟩
  | cons d ds ih =>
      simp only [runDirectives] at h
      cases hstep : step origo s d with
      | error e => rw [hstep] at h; cases h
      | ok t =>
          rw [hstep] at h
          obtain ⟨g1, g2⟩ := step_lengths origo s d t hstep h1 h2
          exact ih t h g1 g2

/-- C7: the claim also demands every emitted triangle index to be
below the vertex count, but indices are taken verbatim from IDX
records with no validation: one VT plus IDX 5 6 7 yields the
triangle (5, 6, 7) against a single stored vertex. -/
theorem C7_counterexample :
    ((runDirectives (0, 0, 0) initState
        [Directive.VT 1 2 3 4 5 6 7 8, Directive.IDX [5, 6, 7],
         Directive.TRIS 0 3]).map
        (fun s => (s.verts.length, s.objects.map (fun p => objectTriangles p.2)))
      = .ok (1, [[(5, 6, 7)]]))
    ∧ ¬ ((5 : Int) < (1 : Nat)) := by decide

/-- C7 (amended): after every completed parse the position, normal
and UV arrays have equal lengths; triangle indices, however, are not
validated against the vertex count. -/
theorem C7_parallel_buffers (origo : Vec3) (ds : List Directive)
    (s2 : ParseState) (h : runDirectives origo initState ds = .ok s2) :
    s2.verts.length = s2.normals.length
      ∧ s2.verts.length = s2.uv.length :=
  runDirectives_lengths origo ds initState s2 h rfl rfl

/-- State after parsing one VT record with raw fields 1..8. -/
def vtState : ParseState :=
  { initState with
      verts := [(1, -3, 2)], normals := [(4, -6, 5)], uv := [(7, 8)] }

/-- C7 (witness): the buffer lengths agree after one VT record. -/
theorem C7_parallel_buffers_witness :
    (runDirectives (0, 0, 0) initState [Directive.VT 1 2 3 4 5 6 7 8]
        = Except.ok vtState)
    ∧ (vtState.verts.length = vtState.normals.length
        ∧ vtState.verts.length = vtState.uv.length) :=
  ⟨by decide,
   C7_parallel_buffers (0, 0, 0) [Directive.VT 1 2 3 4 5 6 7 8] vtState
     (by decide)⟩

/-- C8: an in-range TRIS directive slices exactly count entries of
the index buffer starting at position offset, in buffer order, and
emits them as one descriptor. -/
theorem C8_slice (origo : Vec3) (s : ParseState) (off cnt : Int)
    (h1 : 0 ≤ off) (h2 : 0 ≤ cnt)
    (h3 : off.toNat + cnt.toNat ≤ s.faces.length) :
    (step origo s (.TRIS off cnt)).map ParseState.objects
      = .ok (s.objects ++
          [((if s.trans_available then s.origin_temp else origo),
            (s.faces.drop off.toNat).take cnt.toNat)]) := by
  have hslice : pySlice s.faces off (off + cnt)
      = (s.faces.drop off.toNat).take cnt.toNat := by
    unfold pySlice pySliceIdx
    rw [if_neg (by omega), if_neg (by omega)]
    have ha : min off.toNat s.faces.length = off.toNat := by omega
    have hb : min (off + cnt).toNat s.faces.length = (off + cnt).toNat := by
      omega
    rw [ha, hb, List.drop_take]
    congr 1
    omega
  simp only [step, hslice]
  rfl

/-- C8 (witness): buffer 0..8 with offset 3 and count 6 yields the
slice 3..8 and the triangles (3, 4, 5) and (6, 7, 8). -/
theorem C8_slice_witness :
    ((step (0, 0, 0) { initState with faces := [0, 1, 2, 3, 4, 5, 6, 7, 8] }
        (Directive.TRIS 3 6)).map ParseState.objects
      = .ok [((0, 0, 0), [3, 4, 5, 6, 7, 8])])
    ∧ objectTriangles [3, 4, 5, 6, 7, 8] = [(3, 4, 5), (6, 7, 8)] :=
  ⟨(C8_slice (0, 0, 0)
      { initState with faces := [0, 1, 2, 3, 4, 5, 6, 7, 8] } 3 6
      (by decide) (by decide) (by decide)).trans (by decide),
   by decide⟩

/-- Setting the position right after a list writes its last cell. -/
theorem set_last_append (l : List Vec3) (v w : Vec3) :
    (l ++ [v]).set l.length w = l ++ [w] := by
  induction l with
  | nil => rfl
  | cons a t ih => simp [List.set, ih]

/-- Componentwise subtraction undoes componentwise addition. -/
theorem vadd_vsub_cancel (a b : Vec3) : vsub (vadd a b) b = a := by
  obtain ⟨a1, a2, a3⟩ := a
  obtain ⟨b1, b2, b3⟩ := b
  simp [vadd, vsub]

/-- C9: from any loop state whose transform list has one frame per
open level (as every reachable state without underflow does), the
matched triple ANIM_begin, ANIM_trans, ANIM_end leaves the running
cumulative origin exactly where it was. -/
theorem C9_balanced_pair (origo : Vec3) (s : ParseState) (x y z : ℚ)
    (hn : 0 ≤ s.anim_nesting)
    (hl : s.a_trans.length = s.anim_nesting.toNat + 1) :
    (runDirectives origo s
        [Directive.ANIM_begin, Directive.ANIM_trans x y z,
         Directive.ANIM_end]).map ParseState.origin_temp
      = .ok s.origin_temp := by
  have hlen : (s.a_trans ++ [((0 : ℚ), (0 : ℚ), (0 : ℚ))]).length
      = s.a_trans.length + 1 := by simp
  have hidx : pyIdx (s.a_trans ++ [((0 : ℚ), (0 : ℚ), (0 : ℚ))]).length
      (s.anim_nesting + 1) = some s.a_trans.length := by
    unfold pyIdx
    rw [hlen, if_neg (by omega), if_pos (by omega)]
    congr 1
    omega
  have hset : pySet (s.a_trans ++ [((0 : ℚ), (0 : ℚ), (0 : ℚ))])
      (s.anim_nesting + 1) (x, -z, y)
      = some (s.a_trans ++ [(x, -z, y)]) := by
    unfold pySet
    rw [hidx]
    show some ((s.a_trans ++ [((0 : ℚ), (0 : ℚ), (0 : ℚ))]).set
        s.a_trans.length (x, -z, y)) = _
    rw [set_last_append]
  simp only [runDirectives, step, hset, List.getLast?_concat,
    List.dropLast_concat, Except.map]
  rw [vadd_vsub_cancel]

/-- C9 (witness): begin, translate (1, 0, 0), end from the initial
state leaves the cumulative origin at (0, 0, 0). -/
theorem C9_balanced_pair_witness :
    (runDirectives (0, 0, 0) initState
        [Directive.ANIM_begin, Directive.ANIM_trans 1 0 0,
         Directive.ANIM_end]).map ParseState.origin_temp
      = .ok (0, 0, 0) :=
  C9_balanced_pair (0, 0, 0) initState 1 0 0 (by decide) (by decide)

/-- One step never rewrites an already emitted descriptor: the
objects list of the new state extends the old one. -/
theorem step_objects_extend (origo : Vec3) (s : ParseState)
    (d : Directive) (s2 : ParseState) (h : step origo s d = .ok s2) :
    s2.objects.take s.objects.length = s.objects := by
  have key : ∀ t : List (Vec3 × List Int),
      (s.objects ++ t).take s.objects.length = s.objects :=
    fun t => List.take_left ..
  cases d with
  | VT x y z nx ny nz u v =>
      simp only [step, Except.ok.injEq] at h
      subst h
      simp
  | IDX idxs =>
      simp only [step, Except.ok.injEq] at h
      subst h
      simp
  | ANIM_begin =>
      simp only [step, Except.ok.injEq] at h
      subst h
      simp
  | ANIM_trans x y z =>
      simp only [step] at h
      cases hp : pySet s.a_trans s.anim_nesting (x, -z, y) with
      | none => rw [hp] at h; cases h
      | some l =>
          rw [hp] at h
          simp only [Except.ok.injEq] at h
          subst h
          simp
  | ANIM_end =>
      simp only [step] at h
      cases hp : s.a_trans.getLast? with
      | none => rw [hp] at h; cases h
      | some v =>
          rw [hp] at h
          simp only [Except.ok.injEq] at h
          subst h
          simp
  | TRIS off cnt =>
      simp only [step, Except.ok.injEq] at h
      subst h
      exact key _
  | OTHER =>
      simp only [step, Except.ok.injEq] at h
      subst h
      simp

/-- C10: every descriptor emitted by a TRIS holds its own copy of
the slice: any later directives (IDX appends included) leave the
already emitted part of the objects list unchanged. -/
theorem C10_snapshot (origo : Vec3) (s : ParseState)
    (ds : List Directive) (s2 : ParseState)
    (h : runDirectives origo s ds = .ok s2) :
    s2.objects.take s.objects.length = s.objects := by
  induction ds generalizing s with
  | nil =>
      simp only [runDirectives, Except.ok.injEq] at h
      subst h
      exact List.take_length _
  | cons d ds ih =>
      simp only [runDirectives] at h
      cases hstep : step origo s d with
      | error e => rw [hstep] at h; cases h
      | ok t =>
          rw [hstep] at h
          have h1 := step_objects_extend origo s d t hstep
          have h2 := ih t h
          have hle : s.objects.length ≤ t.objects.length := by
            have h3 := congrArg List.length h1
            simp only [List.length_take] at h3
            omega
          calc s2.objects.take s.objects.length
              = (s2.objects.take t.objects.length).take s.objects.length := by
                rw [List.take_take, min_eq_left hle]
            _ = t.objects.take s.objects.length := by rw [h2]
            _ = s.objects := h1

/-- State after IDX 0 1 2 and TRIS 0 3: one emitted descriptor. -/
def c10mid : ParseState :=
  { initState with faces := [0, 1, 2], objects := [((0, 0, 0), [0, 1, 2])] }

/-- State after further IDX 7 8 9 and TRIS 0 6 from c10mid. -/
def c10end : ParseState :=
  { initState with
      faces := [0, 1, 2, 7, 8, 9]
      objects := [((0, 0, 0), [0, 1, 2]), ((0, 0, 0), [0, 1, 2, 7, 8, 9])] }

/-- C10 (witness): indices appended after the first TRIS leave its
descriptor in place unchanged. -/
theorem C10_snapshot_witness :
    (runDirectives (0, 0, 0) c10mid
        [Directive.IDX [7, 8, 9], Directive.TRIS 0 6] = Except.ok c10end)
    ∧ c10end.objects.take c10mid.objects.length = c10mid.objects :=
  ⟨by decide,
   C10_snapshot (0, 0, 0) c10mid
     [Directive.IDX [7, 8, 9], Directive.TRIS 0 6] c10end (by decide)⟩

end XPImport
